import Mathlib

/-!
Shallow embedding of the core analysis modules of The-Beauty-Inside backend:
quality gate (`app/domain/expression/quality_gate.py`), expression scoring
(`app/domain/expression/expression_map.py`), score scaling
(`app/domain/ranking/score_scale.py`), top-K selection
(`app/domain/ranking/topk.py`), similarity computation
(`app/domain/ranking/similarity.py`), the expression index
(`app/infra/celeb_store/index.py`), error types (`app/core/errors.py`) and
the exception channel of the pipeline (`app/domain/pipeline/analyze_pipeline.py`).

Numeric modelling: modules whose logic is pure comparisons and rational
arithmetic (quality gate, expression scoring, top-K) are embedded over `ℚ`;
modules that use square roots, `exp` or real powers (similarity, score
scaling) are embedded over `ℝ`. Python float arithmetic is idealised as
exact arithmetic over these fields.
-/

namespace BeautyInside

/-- Configuration values from `app/core/config.py` (`Settings`), restricted to
the fields the core modules read. -/
structure Settings where
  min_face_size : ℚ
  max_faces : ℕ
  blur_threshold : ℚ
  brightness_min : ℚ
  brightness_max : ℚ
  expression_confidence_threshold : ℚ
  top_k : ℕ
  similarity_threshold : ℚ

/-- The default values of the settings fields in `app/core/config.py`. -/
def defaultSettings : Settings :=
  { min_face_size := 80
    max_faces := 1
    blur_threshold := 100
    brightness_min := 40
    brightness_max := 250
    expression_confidence_threshold := 3/10
    top_k := 3
    similarity_threshold := 2/5 }

/-- Error codes from `app/core/errors.py` (`ErrorCode`). -/
inductive ErrorCode where
  | NO_FACE_DETECTED
  | MULTIPLE_FACES_DETECTED
  | FACE_TOO_SMALL
  | FACE_OUT_OF_FRAME
  | IMAGE_TOO_BLURRY
  | IMAGE_TOO_DARK
  | IMAGE_TOO_BRIGHT
  | IMAGE_INVALID_FORMAT
  | IMAGE_TOO_LARGE
  | EXPRESSION_NOT_DETECTED
  | EXPRESSION_LOW_CONFIDENCE
  | INTERNAL_ERROR
  | MODEL_LOAD_ERROR
  | DATABASE_ERROR
  | TIMEOUT_ERROR
  | WS_CONNECTION_ERROR
  | WS_MESSAGE_INVALID
  | WS_SESSION_EXPIRED
deriving DecidableEq, Repr

/-- The string value of each error code (`ErrorCode` enum values). -/
def ErrorCode.value : ErrorCode → String
  | .NO_FACE_DETECTED => "E101"
  | .MULTIPLE_FACES_DETECTED => "E102"
  | .FACE_TOO_SMALL => "E103"
  | .FACE_OUT_OF_FRAME => "E104"
  | .IMAGE_TOO_BLURRY => "E201"
  | .IMAGE_TOO_DARK => "E202"
  | .IMAGE_TOO_BRIGHT => "E203"
  | .IMAGE_INVALID_FORMAT => "E204"
  | .IMAGE_TOO_LARGE => "E205"
  | .EXPRESSION_NOT_DETECTED => "E301"
  | .EXPRESSION_LOW_CONFIDENCE => "E302"
  | .INTERNAL_ERROR => "E401"
  | .MODEL_LOAD_ERROR => "E402"
  | .DATABASE_ERROR => "E403"
  | .TIMEOUT_ERROR => "E404"
  | .WS_CONNECTION_ERROR => "E501"
  | .WS_MESSAGE_INVALID => "E502"
  | .WS_SESSION_EXPIRED => "E503"

/-- Default message per error code (`ERROR_MESSAGES` in `app/core/errors.py`);
codes the core never raises without an explicit message keep the generic
fallback text used by `BeautyInsideError.__init__`. -/
def ERROR_MESSAGES : ErrorCode → String
  | .NO_FACE_DETECTED => "얼굴이 감지되지 않았습니다. 카메라를 정면으로 바라봐 주세요."
  | .MULTIPLE_FACES_DETECTED => "여러 명의 얼굴이 감지되었습니다. 한 명만 촬영해 주세요."
  | .FACE_TOO_SMALL => "얼굴이 너무 작습니다. 카메라에 더 가까이 다가와 주세요."
  | .FACE_OUT_OF_FRAME => "얼굴이 화면 밖에 있습니다. 화면 중앙에 위치해 주세요."
  | .IMAGE_TOO_BLURRY => "이미지가 흐립니다. 카메라를 고정하고 다시 촬영해 주세요."
  | .IMAGE_TOO_DARK => "이미지가 너무 어둡습니다. 밝은 곳에서 다시 촬영해 주세요."
  | .IMAGE_TOO_BRIGHT => "이미지가 너무 밝습니다. 조명을 조절해 주세요."
  | .INTERNAL_ERROR => "서버 내부 오류가 발생했습니다. 잠시 후 다시 시도해 주세요."
  | .TIMEOUT_ERROR => "요청 시간이 초과되었습니다."
  | _ => "알 수 없는 오류"

/-- The Python exception classes deriving from `BeautyInsideError`
(`app/core/errors.py`); the base class itself is `base`. -/
inductive PyExcClass where
  | base
  | faceDetection
  | imageQuality
  | expressionErr
  | systemErr
  | webSocket
deriving DecidableEq, Repr

/-- A raised `BeautyInsideError` (or subclass): its dynamic class, error code
and message (`details` is always `{}` in the core and is omitted). -/
structure BeautyInsideError where
  cls : PyExcClass
  code : ErrorCode
  message : String
deriving DecidableEq, Repr

/-- Constructor semantics of `BeautyInsideError.__init__`: an absent message
falls back to `ERROR_MESSAGES.get(code, "알 수 없는 오류")`. -/
def mkError (cls : PyExcClass) (code : ErrorCode) (message : Option String) :
    BeautyInsideError :=
  { cls := cls, code := code, message := message.getD (ERROR_MESSAGES code) }

/-! ## Quality gate (`app/domain/expression/quality_gate.py`) -/

/-- Abstract model of a decoded image. Blur (Laplacian variance over the
grayscale image, `calculate_blur_score`) and mean grayscale brightness
(`calculate_brightness`) are computed by the external `cv2` library, so the
image is carried as those two measurements plus its `shape[:2]`. -/
structure NpImage where
  blur_variance : ℚ
  mean_brightness : ℚ
  height : ℚ
  width : ℚ

/-- Blur score of an image (`calculate_blur_score`): the Laplacian-variance
measurement of the abstract image. -/
def calculate_blur_score (image : NpImage) : ℚ := image.blur_variance

/-- Mean brightness of an image (`calculate_brightness`). -/
def calculate_brightness (image : NpImage) : ℚ := image.mean_brightness

/-- A face bounding box `(x, y, w, h)`. -/
structure BBox where
  x : ℚ
  y : ℚ
  w : ℚ
  h : ℚ

/-- Face-size check (`check_face_size`): both box width and height must be at
least `min_size`. -/
def check_face_size (face_bbox : BBox) (min_size : ℚ) : Bool :=
  decide (min_size ≤ face_bbox.w ∧ min_size ≤ face_bbox.h)

/-- Centering check (`check_face_centered`): the box center must lie within
30% of each image dimension plus a margin around the image center. -/
def check_face_centered (face_bbox : BBox) (image_shape : ℚ × ℚ)
    (margin_r : ℚ) : Bool :=
  let img_h := image_shape.1
  let img_w := image_shape.2
  let face_cx := face_bbox.x + face_bbox.w / 2
  let face_cy := face_bbox.y + face_bbox.h / 2
  let img_cx := img_w / 2
  let img_cy := img_h / 2
  let margin_x := img_w * margin_r
  let margin_y := img_h * margin_r
  decide (|face_cx - img_cx| < img_w * (3/10) + margin_x ∧
          |face_cy - img_cy| < img_h * (3/10) + margin_y)

/-- Quality flags record (`QualityResult` in `app/schemas/result_models.py`)
with its dataclass field defaults. -/
structure QualityResult where
  is_valid : Bool
  is_blurry : Bool
  is_dark : Bool
  is_bright : Bool
  face_size_ok : Bool
  face_centered : Bool
  blur_score : ℚ
  brightness_score : ℚ
deriving DecidableEq, Repr

/-- The dataclass defaults of `QualityResult()`. -/
def QualityResult.init : QualityResult :=
  { is_valid := true
    is_blurry := false
    is_dark := false
    is_bright := false
    face_size_ok := true
    face_centered := true
    blur_score := 0
    brightness_score := 0 }

/-- Full image quality check (`check_image_quality`): fills blur and
brightness flags, runs size/centering checks only when a bounding box is
supplied (the fields keep their dataclass defaults otherwise), and derives
`is_valid` as the conjunction of all five flags. -/
def check_image_quality (s : Settings) (image : NpImage)
    (face_bbox : Option BBox) : QualityResult :=
  let blur := calculate_blur_score image
  let is_blurry := decide (blur < s.blur_threshold)
  let brightness := calculate_brightness image
  let is_dark := decide (brightness < s.brightness_min)
  let is_bright := decide (s.brightness_max < brightness)
  let sizeCentered :=
    match face_bbox with
    | some bb =>
        (check_face_size bb s.min_face_size,
         check_face_centered bb (image.height, image.width) (1/10))
    | none => (QualityResult.init.face_size_ok, QualityResult.init.face_centered)
  { is_valid := !is_blurry && !is_dark && !is_bright &&
      sizeCentered.1 && sizeCentered.2
    is_blurry := is_blurry
    is_dark := is_dark
    is_bright := is_bright
    face_size_ok := sizeCentered.1
    face_centered := sizeCentered.2
    blur_score := blur
    brightness_score := brightness }

/-- Face-count validation (`validate_face_count`): zero faces and too many
faces each raise a `FaceDetectionError`. -/
def validate_face_count (s : Settings) (num_faces : ℕ) :
    Except BeautyInsideError Unit :=
  if num_faces = 0 then
    .error (mkError .faceDetection .NO_FACE_DETECTED
      (some "얼굴이 감지되지 않았습니다"))
  else if s.max_faces < num_faces then
    .error (mkError .faceDetection .MULTIPLE_FACES_DETECTED
      (some (toString num_faces ++ "명의 얼굴이 감지되었습니다. 한 명만 촬영해 주세요.")))
  else
    .ok ()

/-- Quality validation (`validate_quality`): raises on the first violated
flag, in the fixed order blurry, dark, bright, size, centered. The numeric
score interpolated into some messages in the source is omitted from the
modelled message text. -/
def validate_quality (quality : QualityResult) : Except BeautyInsideError Unit :=
  if quality.is_blurry then
    .error (mkError .imageQuality .IMAGE_TOO_BLURRY (some "이미지가 흐립니다"))
  else if quality.is_dark then
    .error (mkError .imageQuality .IMAGE_TOO_DARK (some "이미지가 너무 어둡습니다"))
  else if quality.is_bright then
    .error (mkError .imageQuality .IMAGE_TOO_BRIGHT (some "이미지가 너무 밝습니다"))
  else if !quality.face_size_ok then
    .error (mkError .faceDetection .FACE_TOO_SMALL (some "얼굴이 너무 작습니다"))
  else if !quality.face_centered then
    .error (mkError .faceDetection .FACE_OUT_OF_FRAME
      (some "얼굴이 화면 중앙에 있지 않습니다"))
  else
    .ok ()

/-- The quality gate (`QualityGate`), configured with its `strict` flag. -/
structure QualityGate where
  strict : Bool

/-- The gate check (`QualityGate.check`): validates the face count first
(unconditionally), computes the quality result, and in strict mode raises via
`validate_quality` when the result is not valid. -/
def QualityGate.check (g : QualityGate) (s : Settings) (image : NpImage)
    (face_bbox : Option BBox) (num_faces : ℕ) :
    Except BeautyInsideError QualityResult :=
  match validate_face_count s num_faces with
  | .error e => .error e
  | .ok _ =>
    let quality := check_image_quality s image face_bbox
    if g.strict && !quality.is_valid then
      match validate_quality quality with
      | .error e => .error e
      | .ok _ => .ok quality
    else
      .ok quality

/-! ## Expression scoring (`app/domain/expression/expression_map.py`) -/

/-- Supported expressions (`Expression` in `app/schemas/result_models.py`). -/
inductive Expression where
  | neutral
  | smile
  | sad
  | surprise
deriving DecidableEq, Repr

/-- A blendshape map: Python dict `name -> value`, modelled as an ordered
association list with lookup of the first matching key. -/
abbrev Blendshapes : Type := List (String × ℚ)

/-- The per-expression blendshape weight tables (`EXPRESSION_BLENDSHAPES`),
in dict insertion order. -/
def EXPRESSION_BLENDSHAPES : Expression → List (String × ℚ)
  | .smile =>
      [("mouthSmileLeft", 3/10), ("mouthSmileRight", 3/10),
       ("cheekSquintLeft", 3/20), ("cheekSquintRight", 3/20),
       ("eyeSquintLeft", 1/20), ("eyeSquintRight", 1/20)]
  | .sad =>
      [("mouthFrownLeft", 1/4), ("mouthFrownRight", 1/4),
       ("browDownLeft", 3/20), ("browDownRight", 3/20),
       ("browInnerUp", 1/5)]
  | .surprise =>
      [("browOuterUpLeft", 1/5), ("browOuterUpRight", 1/5),
       ("eyeWideLeft", 3/20), ("eyeWideRight", 3/20),
       ("jawOpen", 3/20), ("mouthOpen", 3/20)]
  | .neutral => []

/-- The per-expression detection thresholds (`EXPRESSION_THRESHOLDS`). -/
def EXPRESSION_THRESHOLDS : Expression → ℚ
  | .smile => 3/10
  | .sad => 1/4
  | .surprise => 7/20
  | .neutral => 0

/-- Score of one expression (`calculate_expression_score`): iterate the
weight table, accumulating `value * weight` and the weight for channels
present in the input; return the weighted average, or `0` when the table is
empty or no relevant channel is present. (The `expression not in
EXPRESSION_BLENDSHAPES` guard of the source is vacuous here because the
weight table is total.) -/
def calculate_expression_score (blendshapes : Blendshapes)
    (expression : Expression) : ℚ :=
  let weights := EXPRESSION_BLENDSHAPES expression
  if weights = [] then 0
  else
    let acc := weights.foldl
      (fun (acc : ℚ × ℚ) (p : String × ℚ) =>
        match List.lookup p.1 blendshapes with
        | some v => (acc.1 + v * p.2, acc.2 + p.2)
        | none => acc)
      (0, 0)
    if acc.2 = 0 then 0 else acc.1 / acc.2

/-- Result of expression detection (`ExpressionScore` dataclass); the
`raw_scores` dict is modelled as a total function over expressions. -/
structure ExpressionScore where
  expression : Expression
  score : ℚ
  confidence : ℚ
  raw_scores : Expression → ℚ

/-- Expression detection (`detect_expression`): empty map yields neutral with
confidence 0; otherwise the argmax over smile, sad, surprise — Python
`max` keeps the current candidate unless a later score is strictly greater,
so ties resolve to the earliest key — is compared to its threshold. -/
def detect_expression (blendshapes : Blendshapes) : ExpressionScore :=
  if blendshapes = [] then
    { expression := .neutral, score := 0, confidence := 0, raw_scores := fun _ => 0 }
  else
    let s := fun e => calculate_expression_score blendshapes e
    let max_expr := [Expression.sad, Expression.surprise].foldl
      (fun best e => if s best < s e then e else best) Expression.smile
    let max_score := s max_expr
    let threshold := EXPRESSION_THRESHOLDS max_expr
    let maxv := max (s .smile) (max (s .sad) (s .surprise))
    let detectedConf :=
      if threshold ≤ max_score then
        (max_expr, min (max_score / (threshold + 1/10)) 1)
      else
        (Expression.neutral, 1 - maxv)
    { expression := detectedConf.1
      score := if detectedConf.1 ≠ Expression.neutral then max_score else 1 - maxv
      confidence := detectedConf.2
      raw_scores := fun e => if e = Expression.neutral then 1 - maxv else s e }

/-- Dominant expression (`get_dominant_expression`): forces neutral when the
detected confidence is below the configured threshold, keeping the measured
confidence. -/
def get_dominant_expression (s : Settings) (blendshapes : Blendshapes) :
    Expression × ℚ :=
  let result := detect_expression blendshapes
  if result.confidence < s.expression_confidence_threshold then
    (Expression.neutral, result.confidence)
  else
    (result.expression, result.confidence)

/-! ## Score scaling (`app/domain/ranking/score_scale.py`)

Scaling works over `ℝ` because the sigmoid strategy uses `np.exp` and the
power strategy uses a real exponent. -/

/-- Round-half-to-even at integer precision, the rounding mode of Python's
built-in `round`. -/
noncomputable def round_half_even (x : ℝ) : ℤ :=
  if Int.fract x < 1/2 then ⌊x⌋
  else if 1/2 < Int.fract x then ⌊x⌋ + 1
  else if Even ⌊x⌋ then ⌊x⌋ else ⌊x⌋ + 1

/-- Rounding to one decimal place, `round(x, 1)`. -/
noncomputable def round1 (x : ℝ) : ℝ := (round_half_even (10 * x) : ℝ) / 10

/-- Linear scaling (`linear_scale`): clamp to `[0,1]`, map linearly onto
`[min_score, max_score]`, round to one decimal. -/
noncomputable def linear_scale (similarity min_score max_score : ℝ) : ℝ :=
  let s := max 0 (min 1 similarity)
  round1 (min_score + s * (max_score - min_score))

/-- Sigmoid scaling (`sigmoid_scale`). -/
noncomputable def sigmoid_scale (similarity center steepness min_score max_score : ℝ) : ℝ :=
  let s := max 0 (min 1 similarity)
  let sigmoid_val := 1 / (1 + Real.exp (-steepness * (s - center)))
  round1 (min_score + sigmoid_val * (max_score - min_score))

/-- Power scaling (`power_scale`), with a real exponent. -/
noncomputable def power_scale (similarity pw min_score max_score : ℝ) : ℝ :=
  let s := max 0 (min 1 similarity)
  round1 (min_score + s ^ pw * (max_score - min_score))

/-- One step of the loop in `percentile_scale`: walk the thresholds in
ascending key order carrying the previous breakpoint; on the first threshold
at or above the similarity either clamp to `min_score` (no previous
breakpoint) or interpolate linearly between the two breakpoints; past the
last threshold return `max_score`. A dict maps each threshold key to a
unique score, so the breakpoints are carried as key-score pairs. -/
noncomputable def percentile_go (similarity min_score max_score : ℝ) :
    Option (ℝ × ℝ) → List (ℝ × ℝ) → ℝ
  | _, [] => max_score
  | prev, (t, sc) :: rest =>
      if similarity ≤ t then
        match prev with
        | none => min_score
        | some p =>
            round1 (p.2 + (similarity - p.1) / (t - p.1) * (sc - p.2))
      else percentile_go similarity min_score max_score (some (t, sc)) rest

/-- Percentile scaling (`percentile_scale`): sort the breakpoints by
threshold (the source sorts the dict keys) and walk them. -/
noncomputable def percentile_scale (similarity : ℝ)
    (percentile_map : List (ℝ × ℝ)) (min_score max_score : ℝ) : ℝ :=
  percentile_go similarity min_score max_score none
    (List.insertionSort (fun a b => a.1 ≤ b.1) percentile_map)

/-- The default breakpoint table (`DEFAULT_PERCENTILE_MAP`). -/
noncomputable def DEFAULT_PERCENTILE_MAP : List (ℝ × ℝ) :=
  [(3/10, 50), (1/2, 70), (7/10, 85), (4/5, 90), (9/10, 95), (1, 99)]

/-- The score scaler (`ScoreScaler`): strategy name, output range, and the
optional keyword parameters read via `kwargs.get` with their defaults. -/
structure ScoreScaler where
  method : String
  min_score : ℝ
  max_score : ℝ
  kw_center : Option ℝ
  kw_steepness : Option ℝ
  kw_power : Option ℝ
  kw_percentile_map : Option (List (ℝ × ℝ))

/-- A `ScoreScaler(method)` built with no keyword arguments and the default
range `[50, 99]`. -/
noncomputable def mkScoreScaler (method : String) : ScoreScaler :=
  { method := method, min_score := 50, max_score := 99,
    kw_center := none, kw_steepness := none, kw_power := none,
    kw_percentile_map := none }

/-- Strategy dispatch (`ScoreScaler._get_scale_func` applied in
`ScoreScaler.scale`): unknown strategies fall back to linear. -/
noncomputable def ScoreScaler.scale (sc : ScoreScaler) (similarity : ℝ) : ℝ :=
  if sc.method = "linear" then
    linear_scale similarity sc.min_score sc.max_score
  else if sc.method = "sigmoid" then
    sigmoid_scale similarity (sc.kw_center.getD (1/2)) (sc.kw_steepness.getD 10)
      sc.min_score sc.max_score
  else if sc.method = "power" then
    power_scale similarity (sc.kw_power.getD (1/2)) sc.min_score sc.max_score
  else if sc.method = "percentile" then
    percentile_scale similarity (sc.kw_percentile_map.getD DEFAULT_PERCENTILE_MAP)
      sc.min_score sc.max_score
  else
    linear_scale similarity sc.min_score sc.max_score

/-- The production scaler `ScoreScaler(method="power", power=0.7)`. -/
noncomputable def default_scaler : ScoreScaler :=
  { method := "power", min_score := 50, max_score := 99,
    kw_center := none, kw_steepness := none, kw_power := some (7/10),
    kw_percentile_map := none }

/-- Default scaling used by top-K selection (`scale_similarity_to_score`). -/
noncomputable def scale_similarity_to_score (similarity : ℝ) : ℝ :=
  default_scaler.scale similarity

/-! ## Top-K selection (`app/domain/ranking/topk.py`)

Raw similarities are compared and thresholded only, so this module is
embedded over `ℚ`; the scaled display score lives in `ℝ` via
`scale_similarity_to_score`. The celebrity-name lookup
(`loader.get_celeb_name`, file-backed) is passed in as a function. -/

/-- Rank tiers (`Rank` in `app/schemas/result_models.py`). -/
inductive Rank where
  | gold
  | silver
  | bronze
deriving DecidableEq, Repr

/-- `RANK_NAMES.get(position, Rank.BRONZE)`: positions 1, 2, 3 map to gold,
silver, bronze and anything else falls back to bronze. -/
def rankName (position : ℕ) : Rank :=
  if position = 1 then .gold else if position = 2 then .silver else .bronze

/-- One similarity result entry (`SimilarityResult` dataclass). -/
structure SimilarityResult where
  celeb_id : String
  name : String
  expression : String
  raw_similarity : ℚ
  scaled_score : ℝ

/-- One ranking entry (`RankingResult` dataclass). -/
structure RankingResult where
  celeb_id : String
  name : String
  expression : String
  score : ℝ
  rank : Rank
  image_url : String

/-- The entry built for a retained pair inside the `select_top_k` loop:
resolve the display name, scale the similarity, default the expression tag
to "neutral". -/
noncomputable def mkSimilarityResult (getName : String → String)
    (expression : Option String) (celeb_id : String) (similarity : ℚ) :
    SimilarityResult :=
  { celeb_id := celeb_id
    name := getName celeb_id
    expression := expression.getD "neutral"
    raw_similarity := similarity
    scaled_score := scale_similarity_to_score (similarity : ℝ) }

/-- The iteration of `select_top_k`: on each pair the threshold break is
tested first, then the count break, then the entry is appended. -/
noncomputable def select_top_k_go (getName : String → String) (k : ℕ)
    (min_similarity : ℚ) (expression : Option String) :
    List (String × ℚ) → List SimilarityResult → List SimilarityResult
  | [], results => results
  | (celeb_id, similarity) :: rest, results =>
      if similarity < min_similarity then results
      else if k ≤ results.length then results
      else select_top_k_go getName k min_similarity expression rest
        (results ++ [mkSimilarityResult getName expression celeb_id similarity])

/-- Top-K candidate selection (`select_top_k`). The `None` defaults of `k`
and `min_similarity` resolve to `settings.top_k` and
`settings.similarity_threshold` at the call site, so both are taken
explicitly here. -/
noncomputable def select_top_k (getName : String → String)
    (similarities : List (String × ℚ)) (k : ℕ) (min_similarity : ℚ)
    (expression : Option String) : List SimilarityResult :=
  select_top_k_go getName k min_similarity expression similarities []

/-- Ranking construction (`create_ranking_results`): the first three
similarity results get ranks by 1-based position and a deterministic image
URL derived from the id with the `_original` suffix stripped. -/
noncomputable def create_ranking_results
    (similarity_results : List SimilarityResult) (expression : String) :
    List RankingResult :=
  (similarity_results.take 3).enum.map (fun p =>
    { celeb_id := p.2.celeb_id
      name := p.2.name
      expression := expression
      score := p.2.scaled_score
      rank := rankName (p.1 + 1)
      image_url := "/api/celeb-image/" ++
        (p.2.celeb_id.replace "_original" "") ++ "_01.jpg" })

/-- The loop of `apply_diversity`: track per-id occurrence counts, penalise
occurrences beyond the allowance. -/
def apply_diversity_go (penalty : ℚ) (same_celeb_limit : ℕ) :
    List (String × ℚ) → (String → ℕ) → List (String × ℚ) → List (String × ℚ)
  | [], _, adjusted => adjusted
  | (celeb_id, similarity) :: rest, counts, adjusted =>
      let count := counts celeb_id
      let adjusted_sim :=
        if same_celeb_limit ≤ count then
          similarity - penalty * ((count : ℚ) - (same_celeb_limit : ℚ) + 1)
        else similarity
      apply_diversity_go penalty same_celeb_limit rest
        (fun c => if c = celeb_id then count + 1 else counts c)
        (adjusted ++ [(celeb_id, adjusted_sim)])

/-- Stable descending sort on the similarity component, the behaviour of
Python's stable `list.sort(key=..., reverse=True)`. -/
def sortBySimDesc (l : List (String × ℚ)) : List (String × ℚ) :=
  List.insertionSort (fun a b => b.2 ≤ a.2) l

/-- Diversity adjustment (`apply_diversity`): penalise repeats, then re-sort
descending by the adjusted similarity. -/
def apply_diversity (similarities : List (String × ℚ)) (penalty : ℚ)
    (same_celeb_limit : ℕ) : List (String × ℚ) :=
  sortBySimDesc (apply_diversity_go penalty same_celeb_limit similarities
    (fun _ => 0) [])

/-- Top-K configuration (`TopKConfig` dataclass). -/
structure TopKConfig where
  k : ℕ
  min_similarity : ℚ
  diversity_penalty : ℚ
  expression_match_bonus : ℚ

/-- The dataclass defaults of `TopKConfig()`. -/
def defaultTopKConfig : TopKConfig :=
  { k := 3, min_similarity := 2/5, diversity_penalty := 0,
    expression_match_bonus := 0 }

/-- The selector (`TopKSelector`) holding its configuration. -/
structure TopKSelector where
  config : TopKConfig

/-- Selection (`TopKSelector.select`): optional diversity pass (penalty
strictly positive), then `select_top_k`, then ranking construction. -/
noncomputable def TopKSelector.select (sel : TopKSelector)
    (getName : String → String) (similarities : List (String × ℚ))
    (expression : String) : List RankingResult :=
  let sims :=
    if 0 < sel.config.diversity_penalty then
      apply_diversity similarities sel.config.diversity_penalty 1
    else similarities
  create_ranking_results
    (select_top_k getName sims sel.config.k sel.config.min_similarity
      (some expression))
    expression

/-! ## Similarity computation (`app/domain/ranking/similarity.py`)

Embeddings are real vectors; a candidate matrix is a list of rows. -/

/-- Dot product of two vectors (`np.dot` on equal-length 1-D arrays). -/
def dotProduct (v w : List ℝ) : ℝ := (List.zipWith (fun a b => a * b) v w).sum

/-- Euclidean norm (`np.linalg.norm`). -/
noncomputable def l2norm (v : List ℝ) : ℝ :=
  Real.sqrt ((v.map (fun x => x ^ 2)).sum)

/-- L2 row normalisation (`row / np.linalg.norm(row)`). -/
noncomputable def normalizeRow (v : List ℝ) : List ℝ :=
  v.map (fun x => x / l2norm v)

/-- Batch cosine similarity (`batch_cosine_similarity`): normalise the query
and every candidate row, then take row-wise dot products. (The reshape of a
1-D query to 2-D and the final flatten are shape bookkeeping with no
numeric content.) -/
noncomputable def batch_cosine_similarity (query : List ℝ)
    (candidates : List (List ℝ)) : List ℝ :=
  let query_norm := normalizeRow query
  candidates.map (fun row => dotProduct query_norm (normalizeRow row))

/-- Batch Euclidean distance (`batch_euclidean_distance`). -/
noncomputable def batch_euclidean_distance (query : List ℝ)
    (candidates : List (List ℝ)) : List ℝ :=
  candidates.map (fun row => l2norm (List.zipWith (fun a b => a - b) row query))

/-- Whether a list of rows forms a 2-D matrix (uniform row length); the
source checks `ndim == 2` on the NumPy array. -/
def isMatrix (candidates : List (List ℝ)) : Bool :=
  match candidates with
  | [] => true
  | r :: rest => rest.all (fun row => row.length = r.length)

/-- Width of the candidate matrix (`celeb_embeddings.shape[-1]`). -/
def rowDim (candidates : List (List ℝ)) : ℕ :=
  (candidates.head?.map List.length).getD 0

/-- Stable descending sort of id-similarity pairs
(`results.sort(key=lambda x: x[1], reverse=True)`). -/
noncomputable def sortPairsDesc (l : List (String × ℝ)) : List (String × ℝ) :=
  List.insertionSort (fun a b => b.2 ≤ a.2) l

/-- Similarity computation (`compute_similarities`): input validation in
source order, similarity per method, pairing with ids, stable descending
sort. The formatted shape values of the dim-mismatch message are omitted. -/
noncomputable def compute_similarities (user_embedding : List ℝ)
    (celeb_embeddings : List (List ℝ)) (celeb_ids : List String)
    (method : String) : Except String (List (String × ℝ)) :=
  if celeb_ids.length = 0 then .error "No candidate embeddings"
  else if !isMatrix celeb_embeddings then .error "Candidate embeddings must be 2D"
  else if user_embedding.length ≠ rowDim celeb_embeddings then
    .error "Embedding dim mismatch"
  else if method = "cosine" then
    .ok (sortPairsDesc (celeb_ids.zip
      (batch_cosine_similarity user_embedding celeb_embeddings)))
  else if method = "euclidean" then
    let distances := batch_euclidean_distance user_embedding celeb_embeddings
    let max_dist := distances.foldl max 0
    let similarities :=
      if 0 < max_dist then distances.map (fun d => 1 - d / max_dist)
      else distances.map (fun _ => 1)
    .ok (sortPairsDesc (celeb_ids.zip similarities))
  else .error ("Unknown similarity method: " ++ method)

/-! ## Expression index (`app/infra/celeb_store/index.py`) -/

/-- The loaded expression index: the `expression -> [celeb_id, ...]` mapping
(`_expr_to_celebs`), modelled as an association list. -/
structure ExpressionIndex where
  expr_to_celebs : List (String × List String)

/-- Lookup of one expression's celebrity ids
(`get_celebs_by_expression`), empty when the expression is unknown. -/
def ExpressionIndex.get_celebs_by_expression (idx : ExpressionIndex)
    (expression : String) : List String :=
  (List.lookup expression idx.expr_to_celebs).getD []

/-- NumPy boolean-mask row selection `array[mask]`. -/
def maskSelect {α : Type} : List α → List Bool → List α
  | [], _ => []
  | _, [] => []
  | a :: l, b :: m => if b then a :: maskSelect l m else maskSelect l m

/-- Expression filtering (`ExpressionIndex.get_filtered_embeddings`): when
the expression's celeb set is empty (or the expression unknown) return the
inputs unchanged; otherwise build the id-membership mask and select the rows
and ids under it. -/
def ExpressionIndex.get_filtered_embeddings (idx : ExpressionIndex)
    (expression : String) (embeddings : List (List ℝ)) (ids : List String) :
    List (List ℝ) × List String :=
  let target_celebs := idx.get_celebs_by_expression expression
  if target_celebs = [] then (embeddings, ids)
  else
    let mask := ids.map (fun id_val => decide (id_val ∈ target_celebs))
    (maskSelect embeddings mask, maskSelect ids mask)

/-! ## Pipeline error channel (`app/domain/pipeline/analyze_pipeline.py`)

The stages of `AnalyzePipeline.analyze` call external collaborators
(decoder, landmarker, embedder, loaders), so the body of its `try` block is
modelled by its outcome: a result, a raised `BeautyInsideError` (or
subclass), or any other raised exception carried with its message. -/

/-- An exception escaping the pipeline body: a typed domain error or any
other Python exception with its `str(e)` message. -/
inductive PyExc where
  | beautyInside (e : BeautyInsideError)
  | other (message : String)

/-- The `except` clauses of `AnalyzePipeline.analyze` (lines 211-218):
`BeautyInsideError` (and its subclasses) re-raised unchanged; any other
exception re-raised as a single internal error whose message carries the
original message. -/
def analyzeWrap {A : Type} (outcome : Except PyExc A) :
    Except BeautyInsideError A :=
  match outcome with
  | .ok r => .ok r
  | .error (.beautyInside e) => .error e
  | .error (.other msg) =>
      .error (mkError .base .INTERNAL_ERROR
        (some ("분석 중 오류가 발생했습니다: " ++ msg)))

/-! ## Specification-side definitions

These definitions restate observable behaviour in the vocabulary of the
specification; the theorems below relate them to the translated code. -/

/-- The first violated quality condition in the priority order of the
specification: blurry, then dark, then bright, then face too small, then
face not centered. -/
def firstViolationCode (q : QualityResult) : ErrorCode :=
  if q.is_blurry then .IMAGE_TOO_BLURRY
  else if q.is_dark then .IMAGE_TOO_DARK
  else if q.is_bright then .IMAGE_TOO_BRIGHT
  else if !q.face_size_ok then .FACE_TOO_SMALL
  else .FACE_OUT_OF_FRAME

/-- The weight-table entries of an expression whose channel is present in
the input blendshape map. -/
def presentChannels (blendshapes : Blendshapes) (expression : Expression) :
    List (String × ℚ) :=
  (EXPRESSION_BLENDSHAPES expression).filter
    (fun p => (List.lookup p.1 blendshapes).isSome)

/-- The maximum of the three non-neutral expression scores. -/
def maxScore3 (bs : Blendshapes) : ℚ :=
  max (calculate_expression_score bs .smile)
    (max (calculate_expression_score bs .sad)
      (calculate_expression_score bs .surprise))

/-- The argmax over smile, sad, surprise with ties broken in enumeration
order (the first expression attaining the maximum wins). -/
def firstArgmax (bs : Blendshapes) : Expression :=
  if calculate_expression_score bs .smile = maxScore3 bs then .smile
  else if calculate_expression_score bs .sad = maxScore3 bs then .sad
  else .surprise

/-- The guarantees of one `ScoreScaler.scale` call: the result lies in the
default display range `[50, 99]`, coincides with the result on the input
clamped to `[0, 1]`, and is an integer multiple of one tenth (one decimal
place). -/
def ScaleOK (sc : ScoreScaler) (s : ℝ) : Prop :=
  50 ≤ sc.scale s ∧ sc.scale s ≤ 99 ∧
  sc.scale s = sc.scale (max 0 (min 1 s)) ∧
  ∃ z : ℤ, sc.scale s = (z : ℝ) / 10

/-! ## Theorems -/

/-- C9: with `face_bbox = None`, the size and centering fields keep their
dataclass defaults `True`, so `is_valid` reduces to the blur and brightness
flags alone. -/
theorem quality_bbox_none_defaults (s : Settings) (image : NpImage) :
    (check_image_quality s image none).face_size_ok = true ∧
    (check_image_quality s image none).face_centered = true ∧
    (check_image_quality s image none).is_valid =
      (!(check_image_quality s image none).is_blurry &&
       !(check_image_quality s image none).is_dark &&
       !(check_image_quality s image none).is_bright) := by
  refine ⟨rfl, rfl, ?_⟩
  simp [check_image_quality, QualityResult.init]

/-- Auxiliary: `is_valid` computed by `check_image_quality` is the
conjunction of its five flags. -/
theorem check_image_quality_is_valid (s : Settings) (image : NpImage)
    (face_bbox : Option BBox) :
    (check_image_quality s image face_bbox).is_valid =
      (!(check_image_quality s image face_bbox).is_blurry &&
       !(check_image_quality s image face_bbox).is_dark &&
       !(check_image_quality s image face_bbox).is_bright &&
       (check_image_quality s image face_bbox).face_size_ok &&
       (check_image_quality s image face_bbox).face_centered) := by
  cases face_bbox <;> rfl

/-- Auxiliary: on an invalid quality result, `validate_quality` raises the
error whose code is the first violated condition in priority order. -/
theorem validate_quality_first (q : QualityResult)
    (hval : q.is_valid =
      (!q.is_blurry && !q.is_dark && !q.is_bright && q.face_size_ok && q.face_centered))
    (hinvalid : q.is_valid = false) :
    ∃ e, validate_quality q = .error e ∧ e.code = firstViolationCode q := by
  rw [hval] at hinvalid
  cases hb : q.is_blurry with
  | true =>
    exact ⟨mkError .imageQuality .IMAGE_TOO_BLURRY (some "이미지가 흐립니다"),
      by simp [validate_quality, hb], by simp [firstViolationCode, hb, mkError]⟩
  | false =>
    cases hd : q.is_dark with
    | true =>
      exact ⟨mkError .imageQuality .IMAGE_TOO_DARK (some "이미지가 너무 어둡습니다"),
        by simp [validate_quality, hb, hd],
        by simp [firstViolationCode, hb, hd, mkError]⟩
    | false =>
      cases hbr : q.is_bright with
      | true =>
        exact ⟨mkError .imageQuality .IMAGE_TOO_BRIGHT (some "이미지가 너무 밝습니다"),
          by simp [validate_quality, hb, hd, hbr],
          by simp [firstViolationCode, hb, hd, hbr, mkError]⟩
      | false =>
        cases hs : q.face_size_ok with
        | false =>
          exact ⟨mkError .faceDetection .FACE_TOO_SMALL (some "얼굴이 너무 작습니다"),
            by simp [validate_quality, hb, hd, hbr, hs],
            by simp [firstViolationCode, hb, hd, hbr, hs, mkError]⟩
        | true =>
          have hc : q.face_centered = false := by
            rw [hb, hd, hbr, hs] at hinvalid
            simpa using hinvalid
          exact ⟨mkError .faceDetection .FACE_OUT_OF_FRAME
              (some "얼굴이 화면 중앙에 있지 않습니다"),
            by simp [validate_quality, hb, hd, hbr, hs, hc],
            by simp [firstViolationCode, hb, hd, hbr, hs, hc, mkError]⟩

/-- C2: `QualityGate.check` validates the face count unconditionally (zero
faces and too many faces raise regardless of `strict`); within limits,
non-strict mode returns the quality result without raising, and strict mode
raises exactly when the result is invalid, reporting the first violated
condition in the priority order blurry, dark, bright, size, centered. -/
theorem qualityGate_check_spec (g : QualityGate) (s : Settings)
    (image : NpImage) (face_bbox : Option BBox) (num_faces : ℕ) :
    (num_faces = 0 →
      g.check s image face_bbox num_faces =
        .error (mkError .faceDetection .NO_FACE_DETECTED
          (some "얼굴이 감지되지 않았습니다"))) ∧
    (num_faces ≠ 0 → s.max_faces < num_faces →
      ∃ e, g.check s image face_bbox num_faces = .error e ∧
        e.cls = .faceDetection ∧ e.code = .MULTIPLE_FACES_DETECTED) ∧
    (num_faces ≠ 0 → num_faces ≤ s.max_faces → g.strict = false →
      g.check s image face_bbox num_faces =
        .ok (check_image_quality s image face_bbox)) ∧
    (num_faces ≠ 0 → num_faces ≤ s.max_faces → g.strict = true →
      ((check_image_quality s image face_bbox).is_valid = true →
        g.check s image face_bbox num_faces =
          .ok (check_image_quality s image face_bbox)) ∧
      ((check_image_quality s image face_bbox).is_valid = false →
        ∃ e, g.check s image face_bbox num_faces = .error e ∧
          e.code = firstViolationCode (check_image_quality s image face_bbox))) := by
  refine ⟨?_, ?_, ?_, ?_⟩
  · intro h0
    simp [QualityGate.check, validate_face_count, h0]
  · intro hne hmax
    refine ⟨mkError .faceDetection .MULTIPLE_FACES_DETECTED
      (some (toString num_faces ++ "명의 얼굴이 감지되었습니다. 한 명만 촬영해 주세요.")), ?_, rfl, rfl⟩
    simp [QualityGate.check, validate_face_count, hne, hmax]
  · intro hne hle hstrict
    simp [QualityGate.check, validate_face_count, hne, Nat.not_lt.mpr hle, hstrict]
  · intro hne hle hstrict
    constructor
    · intro hvalid
      simp [QualityGate.check, validate_face_count, hne, Nat.not_lt.mpr hle, hstrict, hvalid]
    · intro hinvalid
      obtain ⟨e, he, hcode⟩ := validate_quality_first _
        (check_image_quality_is_valid s image face_bbox) hinvalid
      refine ⟨e, ?_, hcode⟩
      simp [QualityGate.check, validate_face_count, hne, Nat.not_lt.mpr hle,
        hstrict, hinvalid, he]

/-- C2 witness: a concrete dark image with one face passes the count check
and, in strict mode, raises the dark error (blur passes, so dark is the
first violated condition). -/
theorem qualityGate_check_spec_witness :
    (QualityGate.check ⟨true⟩ defaultSettings ⟨500, 10, 100, 100⟩ none 0 =
      .error (mkError .faceDetection .NO_FACE_DETECTED
        (some "얼굴이 감지되지 않았습니다"))) ∧
    (∃ e, QualityGate.check ⟨true⟩ defaultSettings ⟨500, 10, 100, 100⟩ none 1 =
      .error e ∧
      e.code = firstViolationCode
        (check_image_quality defaultSettings ⟨500, 10, 100, 100⟩ none)) := by
  constructor
  · exact (qualityGate_check_spec ⟨true⟩ defaultSettings ⟨500, 10, 100, 100⟩ none 0).1 rfl
  · exact ((qualityGate_check_spec ⟨true⟩ defaultSettings ⟨500, 10, 100, 100⟩ none 1).2.2.2
      (by decide) (by decide) rfl).2 (by decide)

/-- C6: the exception channel of `AnalyzePipeline.analyze`: typed domain
errors (any `BeautyInsideError`, including its subclasses) propagate
unchanged, any other exception is re-raised as exactly one
`INTERNAL_ERROR`-coded `BeautyInsideError` whose message carries the
original message, and successful results pass through. -/
theorem analyze_error_propagation {A : Type} (outcome : Except PyExc A) :
    (∀ e : BeautyInsideError, outcome = .error (.beautyInside e) →
      analyzeWrap outcome = .error e) ∧
    (∀ msg : String, outcome = .error (.other msg) →
      analyzeWrap outcome =
        .error { cls := .base, code := .INTERNAL_ERROR,
                 message := "분석 중 오류가 발생했습니다: " ++ msg }) ∧
    (∀ a : A, outcome = .ok a → analyzeWrap outcome = .ok a) := by
  refine ⟨?_, ?_, ?_⟩ <;> intro x h <;> subst h <;> rfl

/-- C6 witness: a concrete timeout error passes unchanged, and a concrete
generic exception is wrapped as an internal error carrying its message. -/
theorem analyze_error_propagation_witness :
    analyzeWrap (A := ℕ)
      (.error (.beautyInside (mkError .systemErr .TIMEOUT_ERROR none))) =
      .error (mkError .systemErr .TIMEOUT_ERROR none) ∧
    analyzeWrap (A := ℕ) (.error (.other "boom")) =
      .error { cls := .base, code := .INTERNAL_ERROR,
               message := "분석 중 오류가 발생했습니다: " ++ "boom" } := by
  constructor
  · exact (analyze_error_propagation _).1 _ rfl
  · exact (analyze_error_propagation _).2.1 "boom" rfl

/-- Auxiliary: selecting under the membership mask of the ids themselves is
filtering the ids. -/
theorem maskSelect_ids (target : List String) :
    ∀ ids : List String,
      maskSelect ids (ids.map (fun i => decide (i ∈ target))) =
        ids.filter (fun i => decide (i ∈ target)) := by
  intro ids
  induction ids with
  | nil => rfl
  | cons a l ih =>
    by_cases h : a ∈ target <;>
      simp [maskSelect, h, ih, List.filter_cons]

/-- Auxiliary: selecting aligned rows under a mask built from the ids is
filtering the zipped rows on the id component. -/
theorem maskSelect_rows {α : Type} (p : String → Bool) :
    ∀ (rows : List α) (ids : List String), rows.length = ids.length →
      maskSelect rows (ids.map p) =
        ((rows.zip ids).filter (fun q => p q.2)).map Prod.fst := by
  intro rows
  induction rows with
  | nil => intro ids _; cases ids <;> rfl
  | cons a l ih =>
    intro ids hlen
    cases ids with
    | nil => simp at hlen
    | cons b m =>
      have hlen' : l.length = m.length := by simpa using hlen
      cases hp : p b <;>
        simp [maskSelect, hp, ih m hlen', List.filter_cons]

/-- C8: `get_filtered_embeddings` returns exactly the rows whose aligned id
belongs to the expression's celeb set, preserving relative order, and
returns the inputs unchanged when the set is empty or the expression is
unknown (fail-open). -/
theorem get_filtered_embeddings_spec (idx : ExpressionIndex)
    (expression : String) (embeddings : List (List ℝ)) (ids : List String)
    (hlen : embeddings.length = ids.length) :
    (idx.get_celebs_by_expression expression = [] →
      idx.get_filtered_embeddings expression embeddings ids =
        (embeddings, ids)) ∧
    (idx.get_celebs_by_expression expression ≠ [] →
      (idx.get_filtered_embeddings expression embeddings ids).2 =
        ids.filter
          (fun i => decide (i ∈ idx.get_celebs_by_expression expression)) ∧
      (idx.get_filtered_embeddings expression embeddings ids).1 =
        ((embeddings.zip ids).filter
          (fun p => decide (p.2 ∈ idx.get_celebs_by_expression expression))).map
          Prod.fst) := by
  constructor
  · intro hempty
    simp [ExpressionIndex.get_filtered_embeddings, hempty]
  · intro hne
    rw [ExpressionIndex.get_filtered_embeddings]
    simp only [if_neg hne]
    exact ⟨maskSelect_ids _ ids, maskSelect_rows _ embeddings ids hlen⟩

/-- C8 witness: a concrete index filters aligned rows by membership and
leaves inputs unchanged for an unknown expression. -/
theorem get_filtered_embeddings_spec_witness :
    ((ExpressionIndex.mk [("smile", ["a", "c"])]).get_filtered_embeddings
        "smile" [[1], [2], [3]] ["a", "b", "c"]).2 =
      (["a", "b", "c"].filter (fun i => decide
        (i ∈ (ExpressionIndex.mk [("smile", ["a", "c"])]).get_celebs_by_expression "smile"))) ∧
    (ExpressionIndex.mk [("smile", ["a", "c"])]).get_filtered_embeddings
        "surprise" [[1], [2], [3]] ["a", "b", "c"] =
      ([[1], [2], [3]], ["a", "b", "c"]) := by
  constructor
  · exact ((get_filtered_embeddings_spec (ExpressionIndex.mk [("smile", ["a", "c"])])
      "smile" [[1], [2], [3]] ["a", "b", "c"] (by decide)).2 (by decide)).1
  · exact (get_filtered_embeddings_spec (ExpressionIndex.mk [("smile", ["a", "c"])])
      "surprise" [[1], [2], [3]] ["a", "b", "c"] (by decide)).1 (by decide)

/-- C10: fail-open does not extend to a non-empty expression set disjoint
from the catalog: filtering returns empty arrays, the similarity step then
raises the `No candidate embeddings` error, and the pipeline wraps that
generic exception as an internal error instead of falling back to the
unfiltered catalog. -/
theorem expression_filter_disjoint_fails (idx : ExpressionIndex)
    (expression : String) (embeddings : List (List ℝ)) (ids : List String)
    (user_embedding : List ℝ)
    (hne : idx.get_celebs_by_expression expression ≠ [])
    (hdisj : ∀ i ∈ ids, i ∉ idx.get_celebs_by_expression expression)
    (hlen : embeddings.length = ids.length) :
    idx.get_filtered_embeddings expression embeddings ids = ([], []) ∧
    compute_similarities user_embedding
      (idx.get_filtered_embeddings expression embeddings ids).1
      (idx.get_filtered_embeddings expression embeddings ids).2 "cosine" =
      .error "No candidate embeddings" ∧
    (∀ A : Type,
      analyzeWrap (A := A) (.error (.other "No candidate embeddings")) =
        .error (mkError .base .INTERNAL_ERROR
          (some ("분석 중 오류가 발생했습니다: " ++ "No candidate embeddings")))) := by
  have hids : ids.filter
      (fun i => decide (i ∈ idx.get_celebs_by_expression expression)) = [] :=
    List.filter_eq_nil_iff.mpr (fun a ha => by simpa using hdisj a ha)
  have hrows : (embeddings.zip ids).filter
      (fun p => decide (p.2 ∈ idx.get_celebs_by_expression expression)) = [] :=
    List.filter_eq_nil_iff.mpr (fun p hp => by
      simpa using hdisj p.2 (List.of_mem_zip hp).2)
  have hfil : idx.get_filtered_embeddings expression embeddings ids = ([], []) := by
    rw [ExpressionIndex.get_filtered_embeddings]
    simp only [if_neg hne]
    rw [maskSelect_ids, maskSelect_rows _ embeddings ids hlen, hids, hrows]
    simp
  refine ⟨hfil, ?_, fun A => rfl⟩
  rw [hfil]
  rfl

/-- C10 witness: a concrete index whose smile set is disjoint from the
catalog ids empties the candidates, errors in similarity, and is wrapped. -/
theorem expression_filter_disjoint_fails_witness :
    (ExpressionIndex.mk [("smile", ["z"])]).get_filtered_embeddings
      "smile" [[1], [2]] ["a", "b"] = ([], []) ∧
    compute_similarities [1]
      ((ExpressionIndex.mk [("smile", ["z"])]).get_filtered_embeddings
        "smile" [[1], [2]] ["a", "b"]).1
      ((ExpressionIndex.mk [("smile", ["z"])]).get_filtered_embeddings
        "smile" [[1], [2]] ["a", "b"]).2 "cosine" =
      .error "No candidate embeddings" ∧
    analyzeWrap (A := ℕ) (.error (.other "No candidate embeddings")) =
      .error (mkError .base .INTERNAL_ERROR
        (some ("분석 중 오류가 발생했습니다: " ++ "No candidate embeddings"))) := by
  obtain ⟨h1, h2, h3⟩ := expression_filter_disjoint_fails
    (ExpressionIndex.mk [("smile", ["z"])]) "smile" [[1], [2]] ["a", "b"] [1]
    (by decide) (by decide) (by decide)
  exact ⟨h1, h2, h3 ℕ⟩

/-- Auxiliary: the fold of `calculate_expression_score` accumulates the
weighted sum and the weight total over exactly the channels present in the
blendshape map. -/
theorem score_foldl (bs : Blendshapes) :
    ∀ (W : List (String × ℚ)) (a b : ℚ),
      W.foldl (fun (acc : ℚ × ℚ) (p : String × ℚ) =>
          match List.lookup p.1 bs with
          | some v => (acc.1 + v * p.2, acc.2 + p.2)
          | none => acc) (a, b) =
        (a + ((W.filter (fun p => (List.lookup p.1 bs).isSome)).map
            (fun p => (List.lookup p.1 bs).getD 0 * p.2)).sum,
         b + ((W.filter (fun p => (List.lookup p.1 bs).isSome)).map
            Prod.snd).sum) := by
  intro W
  induction W with
  | nil => intro a b; simp
  | cons hd tl ih =>
    intro a b
    cases hl : List.lookup hd.1 bs with
    | none => simp [hl, ih, List.filter_cons]
    | some v => simp [hl, ih, List.filter_cons, add_assoc]

/-- C7: for a non-neutral expression, `calculate_expression_score` is the
weighted average over the expression's weight table restricted to channels
present in the input — absent channels count in neither the numerator nor
the denominator, and the score is 0 when no relevant channel is present. -/
theorem calculate_expression_score_spec (bs : Blendshapes) (e : Expression)
    (h : e ≠ .neutral) :
    calculate_expression_score bs e =
      if ((presentChannels bs e).map Prod.snd).sum = 0 then 0
      else ((presentChannels bs e).map
          (fun p => (List.lookup p.1 bs).getD 0 * p.2)).sum /
        ((presentChannels bs e).map Prod.snd).sum := by
  have hw : EXPRESSION_BLENDSHAPES e ≠ [] := by
    cases e <;> simp_all [EXPRESSION_BLENDSHAPES]
  unfold calculate_expression_score
  rw [if_neg hw, score_foldl bs (EXPRESSION_BLENDSHAPES e) 0 0]
  simp [presentChannels]

/-- C7 witness: a sad-channel-only map scores the sad expression as the
weighted average over the single present channel. -/
theorem calculate_expression_score_spec_witness :
    calculate_expression_score [("mouthFrownLeft", 1/2)] .sad =
      if ((presentChannels [("mouthFrownLeft", 1/2)] .sad).map Prod.snd).sum = 0
      then 0
      else ((presentChannels [("mouthFrownLeft", 1/2)] .sad).map
          (fun p => (List.lookup p.1 [("mouthFrownLeft", 1/2)]).getD 0 * p.2)).sum /
        ((presentChannels [("mouthFrownLeft", 1/2)] .sad).map Prod.snd).sum :=
  calculate_expression_score_spec [("mouthFrownLeft", 1/2)] .sad (by decide)

/-- Auxiliary: the Python `max` fold over smile, sad, surprise returns the
first expression attaining the maximal score, and that expression's score
is the maximum. -/
theorem argmax_foldl (bs : Blendshapes) :
    [Expression.sad, Expression.surprise].foldl
      (fun best e =>
        if calculate_expression_score bs best < calculate_expression_score bs e
        then e else best) Expression.smile = firstArgmax bs ∧
    calculate_expression_score bs (firstArgmax bs) = maxScore3 bs := by
  by_cases h1 : calculate_expression_score bs .smile <
      calculate_expression_score bs .sad
  · by_cases h2 : calculate_expression_score bs .sad <
        calculate_expression_score bs .surprise
    · have hm : maxScore3 bs = calculate_expression_score bs .surprise := by
        simp only [maxScore3]
        rw [max_eq_right h2.le, max_eq_right (h1.trans h2).le]
      have hne1 : calculate_expression_score bs .smile ≠ maxScore3 bs := by
        rw [hm]; exact ne_of_lt (h1.trans h2)
      have hne2 : calculate_expression_score bs .sad ≠ maxScore3 bs := by
        rw [hm]; exact ne_of_lt h2
      have hfa : firstArgmax bs = .surprise := by
        rw [firstArgmax, if_neg hne1, if_neg hne2]
      refine ⟨?_, by rw [hfa, hm]⟩
      simp only [List.foldl_cons, List.foldl_nil, if_pos h1, if_pos h2, hfa]
    · have hm : maxScore3 bs = calculate_expression_score bs .sad := by
        simp only [maxScore3]
        rw [max_eq_left (not_lt.mp h2), max_eq_right h1.le]
      have hne1 : calculate_expression_score bs .smile ≠ maxScore3 bs := by
        rw [hm]; exact ne_of_lt h1
      have hfa : firstArgmax bs = .sad := by
        rw [firstArgmax, if_neg hne1, if_pos hm.symm]
      refine ⟨?_, by rw [hfa, hm]⟩
      simp only [List.foldl_cons, List.foldl_nil, if_pos h1, if_neg h2, hfa]
  · by_cases h2 : calculate_expression_score bs .smile <
        calculate_expression_score bs .surprise
    · have hm : maxScore3 bs = calculate_expression_score bs .surprise := by
        simp only [maxScore3]
        rw [max_eq_right ((not_lt.mp h1).trans h2.le), max_eq_right h2.le]
      have hne1 : calculate_expression_score bs .smile ≠ maxScore3 bs := by
        rw [hm]; exact ne_of_lt h2
      have hne2 : calculate_expression_score bs .sad ≠ maxScore3 bs := by
        rw [hm]; exact ne_of_lt (lt_of_le_of_lt (not_lt.mp h1) h2)
      have hfa : firstArgmax bs = .surprise := by
        rw [firstArgmax, if_neg hne1, if_neg hne2]
      refine ⟨?_, by rw [hfa, hm]⟩
      simp only [List.foldl_cons, List.foldl_nil, if_neg h1, if_pos h2, hfa]
    · have hm : maxScore3 bs = calculate_expression_score bs .smile := by
        simp only [maxScore3]
        rw [max_eq_left (max_le (not_lt.mp h1) (not_lt.mp h2))]
      have hfa : firstArgmax bs = .smile := by
        rw [firstArgmax, if_pos hm.symm]
      refine ⟨?_, by rw [hfa, hm]⟩
      simp only [List.foldl_cons, List.foldl_nil, if_neg h1, if_neg h2, hfa]

/-- C3: on a non-empty blendshape map, detection selects the first-wins
argmax over smile, sad, surprise; at or above its threshold the detected
expression is that argmax with confidence
`min (max_score / (threshold + 0.1), 1)`, otherwise neutral with confidence
`1 - max_score`. -/
theorem detect_expression_spec (bs : Blendshapes) (h : bs ≠ []) :
    (EXPRESSION_THRESHOLDS (firstArgmax bs) ≤ maxScore3 bs →
      (detect_expression bs).expression = firstArgmax bs ∧
      (detect_expression bs).confidence =
        min (maxScore3 bs / (EXPRESSION_THRESHOLDS (firstArgmax bs) + 1/10)) 1) ∧
    (maxScore3 bs < EXPRESSION_THRESHOLDS (firstArgmax bs) →
      (detect_expression bs).expression = .neutral ∧
      (detect_expression bs).confidence = 1 - maxScore3 bs) := by
  obtain ⟨hfold, hval⟩ := argmax_foldl bs
  have hmv : max (calculate_expression_score bs .smile)
      (max (calculate_expression_score bs .sad)
        (calculate_expression_score bs .surprise)) = maxScore3 bs := rfl
  unfold detect_expression
  rw [if_neg h]
  simp only [hfold, hval, hmv]
  constructor
  · intro hc
    rw [if_pos hc]
    exact ⟨rfl, rfl⟩
  · intro hc
    rw [if_neg (not_le.mpr hc)]
    exact ⟨rfl, rfl⟩

/-- C3 witness: a pure-smile map detects smile at full confidence. -/
theorem detect_expression_spec_witness :
    (detect_expression [("mouthSmileLeft", 1), ("mouthSmileRight", 1)]).expression =
      firstArgmax [("mouthSmileLeft", 1), ("mouthSmileRight", 1)] ∧
    (detect_expression [("mouthSmileLeft", 1), ("mouthSmileRight", 1)]).confidence =
      min (maxScore3 [("mouthSmileLeft", 1), ("mouthSmileRight", 1)] /
        (EXPRESSION_THRESHOLDS
          (firstArgmax [("mouthSmileLeft", 1), ("mouthSmileRight", 1)]) + 1/10)) 1 :=
  (detect_expression_spec [("mouthSmileLeft", 1), ("mouthSmileRight", 1)]
    (by decide)).1
    (by
      have hsm : calculate_expression_score
          [("mouthSmileLeft", 1), ("mouthSmileRight", 1)] .smile = 1 := by
        simp only [calculate_expression_score, EXPRESSION_BLENDSHAPES,
          List.foldl_cons, List.foldl_nil, List.lookup, String.reduceBEq]
        all_goals simp
      have hsa : calculate_expression_score
          [("mouthSmileLeft", 1), ("mouthSmileRight", 1)] .sad = 0 := by
        simp only [calculate_expression_score, EXPRESSION_BLENDSHAPES,
          List.foldl_cons, List.foldl_nil, List.lookup, String.reduceBEq]
        all_goals simp
      have hsu : calculate_expression_score
          [("mouthSmileLeft", 1), ("mouthSmileRight", 1)] .surprise = 0 := by
        simp only [calculate_expression_score, EXPRESSION_BLENDSHAPES,
          List.foldl_cons, List.foldl_nil, List.lookup, String.reduceBEq]
        all_goals simp
      have hm : maxScore3 [("mouthSmileLeft", 1), ("mouthSmileRight", 1)] = 1 := by
        simp only [maxScore3, hsm, hsa, hsu]
        norm_num
      have hf : firstArgmax [("mouthSmileLeft", 1), ("mouthSmileRight", 1)] = .smile := by
        simp only [firstArgmax, hsm, hm]
        simp
      rw [hf, hm]
      norm_num [EXPRESSION_THRESHOLDS])

/-- Auxiliary: the `select_top_k` loop appends, to its accumulator, the
first `k - |acc|` entries of the prefix of pairs at or above the threshold
(the threshold break is tested before the count break, so this holds for
every input list, sorted or not). -/
theorem select_top_k_go_eq (getName : String → String) (k : ℕ)
    (min_similarity : ℚ) (expression : Option String) :
    ∀ (l : List (String × ℚ)) (acc : List SimilarityResult),
      select_top_k_go getName k min_similarity expression l acc =
        acc ++ ((l.takeWhile (fun p => decide (min_similarity ≤ p.2))).take
            (k - acc.length)).map
          (fun p => mkSimilarityResult getName expression p.1 p.2) := by
  intro l
  induction l with
  | nil => intro acc; simp [select_top_k_go]
  | cons hd tl ih =>
    intro acc
    rcases hd with ⟨celeb_id, similarity⟩
    by_cases h1 : similarity < min_similarity
    · rw [select_top_k_go, if_pos h1]
      rw [List.takeWhile_cons]
      simp [not_le.mpr h1]
    · by_cases h2 : k ≤ acc.length
      · rw [select_top_k_go, if_neg h1, if_pos h2]
        rw [List.takeWhile_cons]
        simp [not_lt.mp h1, Nat.sub_eq_zero_of_le h2]
      · have hsucc : k - acc.length = (k - (acc.length + 1)) + 1 := by omega
        rw [select_top_k_go, if_neg h1, if_neg h2]
        rw [ih]
        rw [List.takeWhile_cons]
        simp only [decide_eq_true_eq, not_lt.mp h1, if_pos (not_lt.mp h1),
          List.length_append, List.length_cons, List.length_nil, hsucc,
          List.take_succ_cons, List.map_cons, List.append_assoc,
          List.cons_append, List.nil_append]
        simp [not_lt.mp h1]

/-- Auxiliary: `select_top_k` never selects more than `k` entries. -/
theorem select_top_k_length_le (getName : String → String)
    (similarities : List (String × ℚ)) (k : ℕ) (min_similarity : ℚ)
    (expression : Option String) :
    (select_top_k getName similarities k min_similarity expression).length ≤ k := by
  rw [select_top_k, select_top_k_go_eq]
  simp only [List.nil_append, List.length_map, Nat.sub_zero]
  exact (List.length_take_le _ _).trans (le_refl k)

/-- C1: on a descending-sorted input, `select_top_k` returns exactly the
first `k` entries of the prefix strictly before the first sub-threshold
pair (so at most `k` entries, all with raw similarity at or above the
threshold, and a sub-threshold pair mid-list truncates the remainder even
when fewer than `k` entries were collected); `TopKSelector.select` likewise
never returns more than its configured `k`. -/
theorem select_top_k_spec (getName : String → String)
    (similarities : List (String × ℚ)) (k : ℕ) (min_similarity : ℚ)
    (expression : Option String)
    (hsorted : List.Sorted (fun a b => b.2 ≤ a.2) similarities) :
    select_top_k getName similarities k min_similarity expression =
      ((similarities.takeWhile (fun p => decide (min_similarity ≤ p.2))).take k).map
        (fun p => mkSimilarityResult getName expression p.1 p.2) ∧
    (select_top_k getName similarities k min_similarity expression).length ≤ k ∧
    (∀ r ∈ select_top_k getName similarities k min_similarity expression,
      min_similarity ≤ r.raw_similarity) ∧
    (∀ (sel : TopKSelector) (expr : String),
      (sel.select getName similarities expr).length ≤ sel.config.k) := by
  refine ⟨?_, select_top_k_length_le getName similarities k min_similarity expression, ?_, ?_⟩
  · rw [select_top_k, select_top_k_go_eq]
    simp
  · intro r hr
    rw [select_top_k, select_top_k_go_eq] at hr
    simp only [List.nil_append, List.mem_map] at hr
    obtain ⟨p, hp, hpr⟩ := hr
    have hp2 : p ∈ similarities.takeWhile (fun p => decide (min_similarity ≤ p.2)) :=
      List.take_subset _ _ hp
    have := List.mem_takeWhile_imp hp2
    simp only [decide_eq_true_eq] at this
    rw [← hpr]
    exact this
  · intro sel expr
    rw [TopKSelector.select]
    calc (create_ranking_results
          (select_top_k getName
            (if 0 < sel.config.diversity_penalty then
              apply_diversity similarities sel.config.diversity_penalty 1
             else similarities)
            sel.config.k sel.config.min_similarity (some expr)) expr).length
        ≤ (select_top_k getName
            (if 0 < sel.config.diversity_penalty then
              apply_diversity similarities sel.config.diversity_penalty 1
             else similarities)
            sel.config.k sel.config.min_similarity (some expr)).length := by
          simp [create_ranking_results, List.enum_length, List.length_take]
      _ ≤ sel.config.k := select_top_k_length_le _ _ _ _ _

/-- C1 witness: a concrete sorted list with a sub-threshold pair in third
position truncates there even though `k = 3` entries were not yet
collected; `TopKSelector.select` with the default configuration returns at
most 3 entries. -/
theorem select_top_k_spec_witness :
    select_top_k id [("a", 9/10), ("b", 7/10), ("c", 3/10), ("d", 1/4)] 3 (2/5)
        (some "smile") =
      (([("a", (9:ℚ)/10), ("b", 7/10), ("c", 3/10), ("d", 1/4)].takeWhile
          (fun p => decide ((2:ℚ)/5 ≤ p.2))).take 3).map
        (fun p => mkSimilarityResult id (some "smile") p.1 p.2) ∧
    (select_top_k id [("a", 9/10), ("b", 7/10), ("c", 3/10), ("d", 1/4)] 3 (2/5)
        (some "smile")).length ≤ 3 ∧
    ((TopKSelector.mk defaultTopKConfig).select id
        [("a", 9/10), ("b", 7/10), ("c", 3/10), ("d", 1/4)] "smile").length ≤ 3 := by
  obtain ⟨h1, h2, _, h4⟩ := select_top_k_spec id
    [("a", 9/10), ("b", 7/10), ("c", 3/10), ("d", 1/4)] 3 (2/5) (some "smile")
    (by norm_num [List.Sorted, List.pairwise_cons])
  exact ⟨h1, h2, h4 (TopKSelector.mk defaultTopKConfig) "smile"⟩

instance : IsTotal (String × ℝ) (fun a b => b.2 ≤ a.2) :=
  ⟨fun a b => le_total b.2 a.2⟩

instance : IsTrans (String × ℝ) (fun a b => b.2 ≤ a.2) :=
  ⟨fun _ _ _ hab hbc => le_trans hbc hab⟩

/-- Auxiliary: inserting a pair into a list keeps, among the entries with a
given similarity value, the inserted pair first when it carries that value
(every entry it is placed after has a strictly larger similarity). -/
theorem orderedInsert_filter_snd (v : ℝ) (a : String × ℝ) :
    ∀ l : List (String × ℝ),
      (l.orderedInsert (fun x y => y.2 ≤ x.2) a).filter
          (fun x => decide (x.2 = v)) =
        if a.2 = v then
          a :: l.filter (fun x => decide (x.2 = v))
        else l.filter (fun x => decide (x.2 = v)) := by
  intro l
  induction l with
  | nil =>
    by_cases ha : a.2 = v <;> simp [List.orderedInsert, List.filter, ha]
  | cons b t ih =>
    rw [List.orderedInsert]
    by_cases hr : b.2 ≤ a.2
    · rw [if_pos hr]
      by_cases ha : a.2 = v <;> simp [List.filter_cons, ha]
    · rw [if_neg hr]
      by_cases ha : a.2 = v
      · have hbv : ¬ (b.2 = v) := fun hb => hr (by rw [hb, ha])
        simp [List.filter_cons, ha, hbv, ih]
      · simp [List.filter_cons, ha, ih]

/-- Auxiliary: the stable descending sort preserves, for every similarity
value, the subsequence of entries carrying that value (tie stability). -/
theorem insertionSort_filter_snd (v : ℝ) :
    ∀ l : List (String × ℝ),
      (List.insertionSort (fun x y => y.2 ≤ x.2) l).filter
          (fun x => decide (x.2 = v)) =
        l.filter (fun x => decide (x.2 = v)) := by
  intro l
  induction l with
  | nil => rfl
  | cons a t ih =>
    rw [List.insertionSort, orderedInsert_filter_snd, ih]
    by_cases ha : a.2 = v <;> simp [List.filter_cons, ha]

/-- C4: on a valid query and non-empty candidate matrix with matching
dimensions, `compute_similarities` (cosine method) succeeds with exactly one
pair per candidate (a permutation of the id-similarity pairing), sorted
non-increasingly by similarity, and entries with equal similarity keep the
relative order of the input candidates. -/
theorem compute_similarities_spec (user_embedding : List ℝ)
    (celeb_embeddings : List (List ℝ)) (celeb_ids : List String)
    (hne : celeb_ids ≠ [])
    (hlen : celeb_ids.length = celeb_embeddings.length)
    (hdim : celeb_embeddings.all
      (fun row => row.length = user_embedding.length) = true) :
    ∃ l, compute_similarities user_embedding celeb_embeddings celeb_ids
        "cosine" = .ok l ∧
      l.Perm (celeb_ids.zip
        (batch_cosine_similarity user_embedding celeb_embeddings)) ∧
      l.length = celeb_ids.length ∧
      (l.map Prod.fst).Perm celeb_ids ∧
      List.Sorted (fun a b => b.2 ≤ a.2) l ∧
      (∀ v : ℝ, l.filter (fun p => decide (p.2 = v)) =
        (celeb_ids.zip
          (batch_cosine_similarity user_embedding celeb_embeddings)).filter
          (fun p => decide (p.2 = v))) := by
  have hlen0 : ¬ celeb_ids.length = 0 := by
    simpa [List.length_eq_zero] using hne
  have hmat : isMatrix celeb_embeddings = true := by
    cases celeb_embeddings with
    | nil => rfl
    | cons r rest =>
      simp only [List.all_cons, Bool.and_eq_true, decide_eq_true_eq,
        List.all_eq_true] at hdim
      simp only [isMatrix, List.all_eq_true, decide_eq_true_eq]
      intro row hrow
      rw [hdim.2 row hrow, hdim.1]
  have hd : user_embedding.length = rowDim celeb_embeddings := by
    cases celeb_embeddings with
    | nil =>
      exfalso
      rw [List.length_eq_zero.mpr rfl] at hlen
      exact hlen0 hlen
    | cons r rest =>
      simp only [List.all_cons, Bool.and_eq_true, decide_eq_true_eq] at hdim
      simp [rowDim, hdim.1]
  have hsims : (batch_cosine_similarity user_embedding celeb_embeddings).length =
      celeb_embeddings.length := by
    simp [batch_cosine_similarity]
  refine ⟨sortPairsDesc (celeb_ids.zip
    (batch_cosine_similarity user_embedding celeb_embeddings)), ?_, ?_, ?_, ?_, ?_, ?_⟩
  · rw [compute_similarities, if_neg hlen0]
    rw [if_neg (by simp [hmat]), if_neg (by simp [hd]), if_pos rfl]
  · exact List.perm_insertionSort _ _
  · have hp : (sortPairsDesc (celeb_ids.zip
        (batch_cosine_similarity user_embedding celeb_embeddings))).Perm
        (celeb_ids.zip (batch_cosine_similarity user_embedding celeb_embeddings)) :=
      List.perm_insertionSort _ _
    rw [hp.length_eq, List.length_zip, hsims, ← hlen, min_self]
  · have h1 : ((sortPairsDesc (celeb_ids.zip
        (batch_cosine_similarity user_embedding celeb_embeddings))).map
        Prod.fst).Perm ((celeb_ids.zip
        (batch_cosine_similarity user_embedding celeb_embeddings)).map
        Prod.fst) := (List.perm_insertionSort _ _).map Prod.fst
    rw [List.map_fst_zip] at h1
    · exact h1
    · rw [hsims, hlen]
  · exact List.sorted_insertionSort _ _
  · exact fun v => insertionSort_filter_snd v _

/-- C4 witness: a concrete two-candidate catalog with matching dimensions
yields an ok, per-candidate, sorted and tie-stable result. -/
theorem compute_similarities_spec_witness :
    ∃ l, compute_similarities [1, 0] [[1, 0], [0, 1]] ["a", "b"] "cosine" =
        .ok l ∧
      l.Perm (["a", "b"].zip
        (batch_cosine_similarity [1, 0] [[1, 0], [0, 1]])) ∧
      l.length = (["a", "b"] : List String).length ∧
      (l.map Prod.fst).Perm ["a", "b"] ∧
      List.Sorted (fun a b => b.2 ≤ a.2) l ∧
      (∀ v : ℝ, l.filter (fun p => decide (p.2 = v)) =
        (["a", "b"].zip
          (batch_cosine_similarity [1, 0] [[1, 0], [0, 1]])).filter
          (fun p => decide (p.2 = v))) :=
  compute_similarities_spec [1, 0] [[1, 0], [0, 1]] ["a", "b"]
    (by decide) (by decide) (by decide)

/-- Auxiliary: round-half-even never rounds below an integer lower bound. -/
theorem round_half_even_ge (y : ℝ) (a : ℤ) (ha : (a : ℝ) ≤ y) :
    a ≤ round_half_even y := by
  have hfa : a ≤ ⌊y⌋ := Int.le_floor.mpr ha
  unfold round_half_even
  split_ifs <;> omega

/-- Auxiliary: round-half-even never rounds above an integer upper bound. -/
theorem round_half_even_le (y : ℝ) (b : ℤ) (hb : y ≤ (b : ℝ)) :
    round_half_even y ≤ b := by
  have hfb : ⌊y⌋ ≤ b := by simpa using Int.floor_le_floor hb
  unfold round_half_even
  split_ifs with h1 h2
  · exact hfb
  · have hfr : (0 : ℝ) < Int.fract y := lt_trans (by norm_num) h2
    have hlt : (⌊y⌋ : ℝ) < y := by
      have h' : (0 : ℝ) < y - ⌊y⌋ := by rw [Int.self_sub_floor]; exact hfr
      linarith
    have hzb : ⌊y⌋ < b := by exact_mod_cast lt_of_lt_of_le hlt hb
    omega
  · exact hfb
  · have heq : Int.fract y = 1 / 2 := le_antisymm (not_lt.mp h2) (not_lt.mp h1)
    have hlt : (⌊y⌋ : ℝ) < y := by
      have h' : y - ⌊y⌋ = 1 / 2 := by rw [Int.self_sub_floor]; exact heq
      linarith
    have hzb : ⌊y⌋ < b := by exact_mod_cast lt_of_lt_of_le hlt hb
    omega

/-- Auxiliary: rounding to one decimal keeps values of `[50, 99]` inside
`[50, 99]` (the interval ends are multiples of one tenth). -/
theorem round1_mem (x : ℝ) (h1 : 50 ≤ x) (h2 : x ≤ 99) :
    50 ≤ round1 x ∧ round1 x ≤ 99 := by
  have hge := round_half_even_ge (10 * x) 500 (by push_cast; linarith)
  have hle := round_half_even_le (10 * x) 990 (by push_cast; linarith)
  have hge' : ((500 : ℤ) : ℝ) ≤ (round_half_even (10 * x) : ℝ) := by
    exact_mod_cast hge
  have hle' : ((round_half_even (10 * x)) : ℝ) ≤ ((990 : ℤ) : ℝ) := by
    exact_mod_cast hle
  unfold round1
  constructor
  · push_cast at hge'
    linarith
  · push_cast at hle'
    linarith

/-- Auxiliary: round-half-even is the identity on integers. -/
theorem round_half_even_intCast (n : ℤ) : round_half_even ((n : ℝ)) = n := by
  unfold round_half_even
  rw [Int.fract_intCast, Int.floor_intCast]
  norm_num

/-- Auxiliary: rounding 99 to one decimal gives 99. -/
theorem round1_99 : round1 (99 : ℝ) = 99 := by
  have h : (10 : ℝ) * 99 = ((990 : ℤ) : ℝ) := by norm_num
  rw [round1, h, round_half_even_intCast]
  norm_num

/-- Auxiliary: a rounded value is an integer number of tenths. -/
theorem round1_tenth (x : ℝ) : ∃ z : ℤ, round1 x = (z : ℝ) / 10 :=
  ⟨round_half_even (10 * x), rfl⟩

/-- Auxiliary: the `[0,1]` clamp lands in `[0,1]`. -/
theorem clamp_mem (s : ℝ) : 0 ≤ max 0 (min 1 s) ∧ max 0 (min 1 s) ≤ 1 :=
  ⟨le_max_left _ _, max_le (by norm_num) (min_le_left _ _)⟩

/-- Auxiliary: the `[0,1]` clamp is idempotent. -/
theorem clamp_idem (s : ℝ) :
    max 0 (min 1 (max 0 (min 1 s))) = max 0 (min 1 s) := by
  obtain ⟨h0, h1⟩ := clamp_mem s
  rw [min_eq_right h1, max_eq_right h0]

/-- Auxiliary: the affine map onto `[50, 99]` of a `[0,1]` value stays in
`[50, 99]`. -/
theorem affine_mem (t : ℝ) (h0 : 0 ≤ t) (h1 : t ≤ 1) :
    50 ≤ 50 + t * (99 - 50) ∧ 50 + t * (99 - 50) ≤ 99 := by
  constructor <;> nlinarith

/-- Auxiliary: linear interpolation between breakpoints inside `[50, 99]`
stays in `[50, 99]` after rounding. -/
theorem interp_mem (s pt t psc csc : ℝ) (hp : pt < s) (ht : s ≤ t)
    (h50 : 50 ≤ psc) (hmono : psc ≤ csc) (h99 : csc ≤ 99) :
    50 ≤ round1 (psc + (s - pt) / (t - pt) * (csc - psc)) ∧
      round1 (psc + (s - pt) / (t - pt) * (csc - psc)) ≤ 99 := by
  have hden : 0 < t - pt := by linarith
  have hr0 : 0 ≤ (s - pt) / (t - pt) := div_nonneg (by linarith) hden.le
  have hr1 : (s - pt) / (t - pt) ≤ 1 := (div_le_one hden).mpr (by linarith)
  have hv1 : psc ≤ psc + (s - pt) / (t - pt) * (csc - psc) := by nlinarith
  have hv2 : psc + (s - pt) / (t - pt) * (csc - psc) ≤ csc := by nlinarith
  exact round1_mem _ (by linarith) (by linarith)

/-- Auxiliary: the linear strategy with defaults satisfies the scale
contract. -/
theorem linear_scale_ok (s : ℝ) : ScaleOK (mkScoreScaler "linear") s := by
  have hv : ∀ x : ℝ, (mkScoreScaler "linear").scale x =
      round1 (50 + max 0 (min 1 x) * (99 - 50)) := fun x => rfl
  obtain ⟨h0, h1⟩ := clamp_mem s
  obtain ⟨hb1, hb2⟩ := affine_mem _ h0 h1
  refine ⟨?_, ?_, ?_, ?_⟩
  · rw [hv]; exact (round1_mem _ hb1 hb2).1
  · rw [hv]; exact (round1_mem _ hb1 hb2).2
  · rw [hv, hv, clamp_idem]
  · rw [hv]; exact round1_tenth _

/-- Auxiliary: the sigmoid strategy with defaults satisfies the scale
contract. -/
theorem sigmoid_scale_ok (s : ℝ) : ScaleOK (mkScoreScaler "sigmoid") s := by
  have hv : ∀ x : ℝ, (mkScoreScaler "sigmoid").scale x =
      round1 (50 + 1 / (1 + Real.exp (-10 * (max 0 (min 1 x) - 1 / 2))) *
        (99 - 50)) := fun x => rfl
  have hbounds : ∀ x : ℝ,
      0 ≤ 1 / (1 + Real.exp (-10 * (max 0 (min 1 x) - 1 / 2))) ∧
      1 / (1 + Real.exp (-10 * (max 0 (min 1 x) - 1 / 2))) ≤ 1 := by
    intro x
    have he := Real.exp_pos (-10 * (max 0 (min 1 x) - 1 / 2))
    constructor
    · positivity
    · rw [div_le_one (by linarith)]
      linarith
  obtain ⟨h0, h1⟩ := hbounds s
  obtain ⟨hb1, hb2⟩ := affine_mem _ h0 h1
  refine ⟨?_, ?_, ?_, ?_⟩
  · rw [hv]; exact (round1_mem _ hb1 hb2).1
  · rw [hv]; exact (round1_mem _ hb1 hb2).2
  · rw [hv, hv, clamp_idem]
  · rw [hv]; exact round1_tenth _

/-- Auxiliary: the power strategy with defaults satisfies the scale
contract. -/
theorem power_scale_ok (s : ℝ) : ScaleOK (mkScoreScaler "power") s := by
  have hv : ∀ x : ℝ, (mkScoreScaler "power").scale x =
      round1 (50 + max 0 (min 1 x) ^ ((1 : ℝ) / 2) * (99 - 50)) := fun x => rfl
  obtain ⟨h0, h1⟩ := clamp_mem s
  have hp0 : 0 ≤ max 0 (min 1 s) ^ ((1 : ℝ) / 2) := Real.rpow_nonneg h0 _
  have hp1 : max 0 (min 1 s) ^ ((1 : ℝ) / 2) ≤ 1 :=
    Real.rpow_le_one h0 h1 (by norm_num)
  obtain ⟨hb1, hb2⟩ := affine_mem _ hp0 hp1
  refine ⟨?_, ?_, ?_, ?_⟩
  · rw [hv]; exact (round1_mem _ hb1 hb2).1
  · rw [hv]; exact (round1_mem _ hb1 hb2).2
  · rw [hv, hv, clamp_idem]
  · rw [hv]; exact round1_tenth _

/-- Auxiliary: the default breakpoint table is already sorted by key. -/
theorem default_pmap_sorted :
    List.insertionSort (fun (a b : ℝ × ℝ) => a.1 ≤ b.1) DEFAULT_PERCENTILE_MAP =
      DEFAULT_PERCENTILE_MAP := by
  apply List.Sorted.insertionSort_eq
  norm_num [DEFAULT_PERCENTILE_MAP, List.Sorted, List.pairwise_cons]

/-- Auxiliary: the percentile strategy with the default breakpoint map
satisfies the scale contract. -/
theorem percentile_scale_ok (s : ℝ) : ScaleOK (mkScoreScaler "percentile") s := by
  have hval : ∀ x : ℝ, (mkScoreScaler "percentile").scale x =
      percentile_go x 50 99 none DEFAULT_PERCENTILE_MAP := by
    intro x
    show percentile_scale x DEFAULT_PERCENTILE_MAP 50 99 = _
    unfold percentile_scale
    rw [default_pmap_sorted]
  have hgo_low : ∀ x : ℝ, x ≤ 3/10 →
      percentile_go x 50 99 none DEFAULT_PERCENTILE_MAP = 50 := by
    intro x hx
    simp only [DEFAULT_PERCENTILE_MAP, percentile_go]
    rw [if_pos hx]
  have hgo1 : ∀ x : ℝ, 3/10 < x → x ≤ 1/2 →
      percentile_go x 50 99 none DEFAULT_PERCENTILE_MAP =
        round1 (50 + (x - 3/10) / (1/2 - 3/10) * (70 - 50)) := by
    intro x h1 h2
    simp only [DEFAULT_PERCENTILE_MAP, percentile_go]
    rw [if_neg (not_le.mpr h1), if_pos h2]
  have hgo2 : ∀ x : ℝ, 1/2 < x → x ≤ 7/10 →
      percentile_go x 50 99 none DEFAULT_PERCENTILE_MAP =
        round1 (70 + (x - 1/2) / (7/10 - 1/2) * (85 - 70)) := by
    intro x h1 h2
    simp only [DEFAULT_PERCENTILE_MAP, percentile_go]
    rw [if_neg (not_le.mpr (lt_trans (by norm_num) h1)),
      if_neg (not_le.mpr h1), if_pos h2]
  have hgo3 : ∀ x : ℝ, 7/10 < x → x ≤ 4/5 →
      percentile_go x 50 99 none DEFAULT_PERCENTILE_MAP =
        round1 (85 + (x - 7/10) / (4/5 - 7/10) * (90 - 85)) := by
    intro x h1 h2
    simp only [DEFAULT_PERCENTILE_MAP, percentile_go]
    rw [if_neg (not_le.mpr (lt_trans (by norm_num) h1)),
      if_neg (not_le.mpr (lt_trans (by norm_num) h1)),
      if_neg (not_le.mpr h1), if_pos h2]
  have hgo4 : ∀ x : ℝ, 4/5 < x → x ≤ 9/10 →
      percentile_go x 50 99 none DEFAULT_PERCENTILE_MAP =
        round1 (90 + (x - 4/5) / (9/10 - 4/5) * (95 - 90)) := by
    intro x h1 h2
    simp only [DEFAULT_PERCENTILE_MAP, percentile_go]
    rw [if_neg (not_le.mpr (lt_trans (by norm_num) h1)),
      if_neg (not_le.mpr (lt_trans (by norm_num) h1)),
      if_neg (not_le.mpr (lt_trans (by norm_num) h1)),
      if_neg (not_le.mpr h1), if_pos h2]
  have hgo5 : ∀ x : ℝ, 9/10 < x → x ≤ 1 →
      percentile_go x 50 99 none DEFAULT_PERCENTILE_MAP =
        round1 (95 + (x - 9/10) / (1 - 9/10) * (99 - 95)) := by
    intro x h1 h2
    simp only [DEFAULT_PERCENTILE_MAP, percentile_go]
    rw [if_neg (not_le.mpr (lt_trans (by norm_num) h1)),
      if_neg (not_le.mpr (lt_trans (by norm_num) h1)),
      if_neg (not_le.mpr (lt_trans (by norm_num) h1)),
      if_neg (not_le.mpr (lt_trans (by norm_num) h1)),
      if_neg (not_le.mpr h1), if_pos h2]
  have hgo_high : ∀ x : ℝ, 1 < x →
      percentile_go x 50 99 none DEFAULT_PERCENTILE_MAP = 99 := by
    intro x hx
    simp only [DEFAULT_PERCENTILE_MAP, percentile_go]
    rw [if_neg (not_le.mpr (lt_trans (by norm_num) hx)),
      if_neg (not_le.mpr (lt_trans (by norm_num) hx)),
      if_neg (not_le.mpr (lt_trans (by norm_num) hx)),
      if_neg (not_le.mpr (lt_trans (by norm_num) hx)),
      if_neg (not_le.mpr (lt_trans (by norm_num) hx)),
      if_neg (not_le.mpr hx)]
  have hv99 : percentile_go 1 50 99 none DEFAULT_PERCENTILE_MAP = 99 := by
    rw [hgo5 1 (by norm_num) (le_refl 1)]
    have harg : (95 : ℝ) + ((1 : ℝ) - 9/10) / (1 - 9/10) * (99 - 95) = 99 := by
      norm_num
    rw [harg, round1_99]
  unfold ScaleOK
  rw [hval s, hval (max 0 (min 1 s))]
  rcases le_or_lt s (3/10) with h1 | h1
  · have hcl : max 0 (min 1 s) ≤ 3/10 :=
      max_le (by norm_num) (le_trans (min_le_right 1 s) h1)
    rw [hgo_low s h1, hgo_low _ hcl]
    exact ⟨by norm_num, by norm_num, rfl, ⟨500, by norm_num⟩⟩
  · have h0s : (0 : ℝ) ≤ s := le_of_lt (lt_trans (by norm_num) h1)
    rcases le_or_lt s (1/2) with h2 | h2
    · have hcl : max 0 (min 1 s) = s := by
        rw [min_eq_right (le_trans h2 (by norm_num)), max_eq_right h0s]
      rw [hcl, hgo1 s h1 h2]
      obtain ⟨hm1, hm2⟩ := interp_mem s (3/10) (1/2) 50 70 h1 h2
        (by norm_num) (by norm_num) (by norm_num)
      exact ⟨hm1, hm2, rfl, round1_tenth _⟩
    · rcases le_or_lt s (7/10) with h3 | h3
      · have hcl : max 0 (min 1 s) = s := by
          rw [min_eq_right (le_trans h3 (by norm_num)), max_eq_right h0s]
        rw [hcl, hgo2 s h2 h3]
        obtain ⟨hm1, hm2⟩ := interp_mem s (1/2) (7/10) 70 85 h2 h3
          (by norm_num) (by norm_num) (by norm_num)
        exact ⟨hm1, hm2, rfl, round1_tenth _⟩
      · rcases le_or_lt s (4/5) with h4 | h4
        · have hcl : max 0 (min 1 s) = s := by
            rw [min_eq_right (le_trans h4 (by norm_num)), max_eq_right h0s]
          rw [hcl, hgo3 s h3 h4]
          obtain ⟨hm1, hm2⟩ := interp_mem s (7/10) (4/5) 85 90 h3 h4
            (by norm_num) (by norm_num) (by norm_num)
          exact ⟨hm1, hm2, rfl, round1_tenth _⟩
        · rcases le_or_lt s (9/10) with h5 | h5
          · have hcl : max 0 (min 1 s) = s := by
              rw [min_eq_right (le_trans h5 (by norm_num)), max_eq_right h0s]
            rw [hcl, hgo4 s h4 h5]
            obtain ⟨hm1, hm2⟩ := interp_mem s (4/5) (9/10) 90 95 h4 h5
              (by norm_num) (by norm_num) (by norm_num)
            exact ⟨hm1, hm2, rfl, round1_tenth _⟩
          · rcases le_or_lt s 1 with h6 | h6
            · have hcl : max 0 (min 1 s) = s := by
                rw [min_eq_right h6, max_eq_right h0s]
              rw [hcl, hgo5 s h5 h6]
              obtain ⟨hm1, hm2⟩ := interp_mem s (9/10) 1 95 99 h5 h6
                (by norm_num) (by norm_num) (by norm_num)
              exact ⟨hm1, hm2, rfl, round1_tenth _⟩
            · have hcl : max 0 (min 1 s) = 1 := by
                rw [min_eq_left h6.le, max_eq_right (by norm_num : (0:ℝ) ≤ 1)]
              rw [hgo_high s h6, hcl, hv99]
              exact ⟨by norm_num, by norm_num, rfl, ⟨990, by norm_num⟩⟩

/-- C5: for every real input and each of the four strategies with default
parameters (and the default breakpoint map for percentile),
`ScoreScaler.scale` stays within the default `[min_score, max_score]` range
`[50, 99]`, agrees with the value on the input clamped to `[0, 1]`, and is
rounded to one decimal place. -/
theorem scoreScaler_scale_spec (s : ℝ) :
    ScaleOK (mkScoreScaler "linear") s ∧
    ScaleOK (mkScoreScaler "sigmoid") s ∧
    ScaleOK (mkScoreScaler "power") s ∧
    ScaleOK (mkScoreScaler "percentile") s :=
  ⟨linear_scale_ok s, sigmoid_scale_ok s, power_scale_ok s,
    percentile_scale_ok s⟩

end BeautyInside
